import Mathlib

/-!
Stub / skeleton call marshalling (`include/utility/stub_skeleton.h`) and `Alarm::ticks`
(`include/alarm_kernel.h`).

A shallow embedding of the marshalling templates and of the stub-generating
macros, over an explicit model of the privileged heap, together with the
properties of the generated stubs.

Conventions of the embedding

* `tuple< Args... >` is a right-nested product indexed by the list of its
  component types; `get<i>( tup )` read as an rvalue is `get0`/`get1`/`get2`,
  and `get<i>( tup ) = v` is `set0`/`set1`/`set2`.
* A pointer `T*` is an address (`Ptr`) into the `SYSTEM` heap, a list of cells.
* A trampoline `void call( void * data )` becomes a function that receives the
  packet `data` points to and returns the packet as it leaves it.
* A declaration without initialiser (`tuple_type tup;`) leaves its contents
  indeterminate: every stub takes the initial contents of its packet as a
  parameter, over which the theorems quantify.
* Behaviour that C++ leaves undefined (using a pointer to no live object) is
  the result `none`.
* `System.trace` is ghost state recording gate transfers, invocations of bound
  operations, allocations and releases, so that "exactly once" can be stated.
* A bound operation is what its body does. An operation that returns a value
  is the value it returns (with, for a non-const method, the state it leaves
  its object in). A `void` operation that cannot assign to a receiver (a
  `void` const method, a `void` free function) is called for its effect alone
  and is the effect of its body on the privileged heap (`Effect`).
-/

namespace EPOS_Kernel

/-! ## Tuple utility (`tuple.h`, not part of the sources) -/

/-- Modelled from the spec: the tuple utility of `tuple.h`, a "fixed-arity
heterogeneous ordered container"; `tuple [A, B, C]` is `tuple< A, B, C >`. -/
@[reducible] def tuple : List Type → Type
  | [] => Unit
  | A :: As => A × tuple As

/-- The type `R (*)( Args... )` of an operation taking `Args...` in
declaration order. -/
@[reducible] def Fn : List Type → Type → Type
  | [], R => R
  | A :: As, R => A → Fn As R

/-- Modelled from the spec: the tuple utility's "apply" operation, "invoking a
given function/method with elements unpacked as positional arguments, left to
right". -/
def Fn.apply : {Args : List Type} → {R : Type} → Fn Args R → tuple Args → R
  | [], _, f, _ => f
  | _ :: _, _, f, (a, rest) => Fn.apply (f a) rest

/-- Composition of an operation with a continuation applied to its result:
`fun args... => k (f args...)`. -/
def Fn.map : {Args : List Type} → {R S : Type} → (R → S) → Fn Args R → Fn Args S
  | [], _, _, k, f => k f
  | _ :: _, _, _, k, f => fun a => Fn.map k (f a)

/-- Modelled from the spec: indexed read `get<0>( tup )`. -/
def get0 {A : Type} {As : List Type} (tup : tuple (A :: As)) : A := tup.1

/-- Modelled from the spec: indexed read `get<1>( tup )`. -/
def get1 {A B : Type} {As : List Type} (tup : tuple (A :: B :: As)) : B := tup.2.1

/-- Modelled from the spec: indexed read `get<2>( tup )`. -/
def get2 {A B C : Type} {As : List Type} (tup : tuple (A :: B :: C :: As)) : C := tup.2.2.1

/-- Modelled from the spec: indexed write `get<0>( tup ) = a`. -/
def set0 {A : Type} {As : List Type} (tup : tuple (A :: As)) (a : A) : tuple (A :: As) :=
  (a, tup.2)

/-- Modelled from the spec: indexed write `get<1>( tup ) = b`. -/
def set1 {A B : Type} {As : List Type} (tup : tuple (A :: B :: As)) (b : B) :
    tuple (A :: B :: As) :=
  (tup.1, b, tup.2.2)

/-- Modelled from the spec: indexed write `get<2>( tup ) = c`. -/
def set2 {A B C : Type} {As : List Type} (tup : tuple (A :: B :: C :: As)) (c : C) :
    tuple (A :: B :: C :: As) :=
  (tup.1, tup.2.1, c, tup.2.2.2)

/-! ## The privileged side: heap, ghost trace, C++ primitives -/

/-- A pointer `T*`: an address in the `SYSTEM` heap. -/
abbrev Ptr := Nat

/-- Ghost events, recorded in order of occurrence. -/
inductive Event where
  /-- one control transfer through the gate -/
  | syscall
  /-- one invocation of a bound method on the object at `obj` -/
  | method (obj : Ptr)
  /-- one invocation of a bound free function -/
  | function
  /-- one allocation, that yielded address `p` -/
  | new (p : Ptr)
  /-- one release of the object at address `p` -/
  | delete (p : Ptr)
  deriving DecidableEq, Repr

/-- The privileged side: the `SYSTEM` heap holding the objects of the
privileged type `T` (cell `p` is `some t` while address `p` holds the live
object `t`, `none` once it has been released) and the ghost trace. -/
structure System (T : Type) where
  heap : List (Option T)
  trace : List Event
  deriving DecidableEq, Repr

/-- Privileged code returning an `R`: a function of the privileged state,
`none` where the behaviour is undefined. -/
abbrev Kernel (T R : Type) := System T → Option (R × System T)

/-- What the body of a `void` operation without an assignable receiver does: it
takes the privileged heap from one state to another. -/
abbrev Effect (T : Type) := List (Option T) → List (Option T)

/-- The live object a pointer refers to, if any. -/
def System.deref {T : Type} (s : System T) (p : Ptr) : Option T :=
  (s.heap[p]?).join

/-- The number of live privileged objects (the allocation counter). -/
def System.live {T : Type} (s : System T) : Nat :=
  s.heap.countP Option.isSome

/-- Modelled from the spec: the privileged allocator `new(SYSTEM) T( ... )`,
"allocating a new privileged object of a given type"; `t` is the object as its
initialisation leaves it. The new object takes the first unused address. -/
def new_SYSTEM {T : Type} (t : T) : Kernel T Ptr := fun s =>
  some (s.heap.length, ⟨s.heap ++ [some t], s.trace ++ [Event.new s.heap.length]⟩)

/-- The C++ expression `delete t`: releases the live object at `p`; undefined on
a pointer to no live object. -/
def delete {T : Type} (p : Ptr) : Kernel T Unit := fun s =>
  match s.deref p with
  | none => none
  | some _ => some ((), ⟨s.heap.set p none, s.trace ++ [Event.delete p]⟩)

/-- The C++ call `(obj->*M)( args... )` of a non-const method, `body` being `M`
with its arguments supplied: runs the body once on the object at `obj`, which
is left as the body leaves it. This is the direct call `object->m( p1..pn )`. -/
def invoke {T R : Type} (obj : Ptr) (body : T → R × T) : Kernel T R := fun s =>
  match s.deref obj with
  | none => none
  | some t =>
    some ((body t).1, ⟨s.heap.set obj (some (body t).2), s.trace ++ [Event.method obj]⟩)

/-- The C++ call `(obj->*M)( args... )` of a const method: runs the body once on
the object at `obj`, which it cannot change. -/
def invoke_const {T R : Type} (obj : Ptr) (body : T → R) : Kernel T R := fun s =>
  match s.deref obj with
  | none => none
  | some t => some (body t, ⟨s.heap, s.trace ++ [Event.method obj]⟩)

/-- The C++ call `(obj->*m)( args... )` of a `void` const method, `body` being
`m` with its arguments supplied: runs the body once, on the object at `obj`
as it is at the call and on the heap as it is at the call. -/
def invoke_const_void {T : Type} (obj : Ptr) (body : T → Effect T) : Kernel T Unit := fun s =>
  match s.deref obj with
  | none => none
  | some t => some ((), ⟨body t s.heap, s.trace ++ [Event.method obj]⟩)

/-- The C++ call `F( args... )` of a free function, `r` being what `F` returns
on these arguments. This is the direct call `F( p1..pn )`. -/
def invoke_function {T R : Type} (r : R) : Kernel T R := fun s =>
  some (r, ⟨s.heap, s.trace ++ [Event.function]⟩)

/-- The C++ call `F( args... )` of a `void` free function, `body` being `F` with
its arguments supplied: runs the body once, on the heap as it is at the
call. -/
def invoke_void_function {T : Type} (body : Effect T) : Kernel T Unit := fun s =>
  some ((), ⟨body s.heap, s.trace ++ [Event.function]⟩)

/-- Modelled from the spec: `tuple_call( M, obj, args )` of `tuple.h` for a
non-const method: calls `M` on `*obj` with the elements of `args` unpacked as
positional arguments, left to right. A `void` method has `R = Unit`. -/
def tuple_call_method {T R : Type} {Args : List Type} (M : T → Fn Args (R × T))
    (obj : Ptr) (args : tuple Args) : Kernel T R :=
  invoke obj (fun t => Fn.apply (M t) args)

/-- Modelled from the spec: `tuple_call( M, obj, args )` of `tuple.h` for a
const method that returns a value. -/
def tuple_call_const {T R : Type} {Args : List Type} (M : T → Fn Args R)
    (obj : Ptr) (args : tuple Args) : Kernel T R :=
  invoke_const obj (fun t => Fn.apply (M t) args)

/-- Modelled from the spec: `tuple_call( m, obj, args )` of `tuple.h` for a
`void` const method. -/
def tuple_call_const_void {T : Type} {Args : List Type} (m : T → Fn Args (Effect T))
    (obj : Ptr) (args : tuple Args) : Kernel T Unit :=
  invoke_const_void obj (fun t => Fn.apply (m t) args)

/-- Modelled from the spec: `tuple_call( F, args )` of `tuple.h` for a free
function that returns a value. -/
def tuple_call {T R : Type} {Args : List Type} (F : Fn Args R) (args : tuple Args) :
    Kernel T R :=
  invoke_function (Fn.apply F args)

/-- Modelled from the spec: `tuple_call( F, args )` of `tuple.h` for a `void`
free function. -/
def tuple_call_void {T : Type} {Args : List Type} (F : Fn Args (Effect T))
    (args : tuple Args) : Kernel T Unit :=
  invoke_void_function (Fn.apply F args)

/-- Modelled from the spec: `tuple_call( F, args )` of `tuple.h` for a function
of the kernel itself, whose body is privileged code. -/
def tuple_call_kernel {T R : Type} {Args : List Type} (F : Fn Args (Kernel T R))
    (args : tuple Args) : Kernel T R :=
  Fn.apply F args

/-- Modelled from the spec: the gate primitive `syscall( trampoline, data )`,
which "executes `trampoline(packet_ptr)` with elevated privilege, synchronously,
altering the packet only through the trampoline's own writes". -/
def syscall {T D X : Type} (trampoline : D → Kernel T X) (data : D) : Kernel T X := fun s =>
  trampoline data ⟨s.heap, s.trace ++ [Event.syscall]⟩

/-! ## `Skeleton` family -/

/-- What the stub macros use of the specialisation of `Skeleton` that
`Skeleton< cv skeleton_type, ret, Args... >` selects: the kind of
pointer-to-member `method` is parameterised by, the components of `tuple_type`
that follow the argument tuple and the receiver, `get_return` and
`method< M >::call`. -/
structure Specialization (T R : Type) (Args : List Type) where
  method_type : Type
  slots : List Type
  get_return : tuple (tuple Args :: Ptr :: slots) → R
  call : method_type → tuple (tuple Args :: Ptr :: slots) →
    Kernel T (tuple (tuple Args :: Ptr :: slots))

/-- The member `tuple_type` of a specialisation. -/
@[reducible] def Specialization.tuple_type {T R : Type} {Args : List Type}
    (Sk : Specialization T R Args) : Type :=
  tuple (tuple Args :: Ptr :: Sk.slots)

/-- The primary template `template< typename T, typename R, typename ... Args > struct Skeleton`
(non-void, non-const): `tuple_type` is `tuple< args_type, T*, R >`. -/
def Skeleton (T R : Type) (Args : List Type) : Specialization T R Args where
  method_type := T → Fn Args (R × T)
  slots := [R]
  get_return := fun tup => get2 tup
  call := fun M data s =>
    match tuple_call_method M (get1 data) (get0 data) s with
    | none => none
    | some (r, s') => some (set2 data r, s')

/-- The specialisation `struct Skeleton< T, void, Args... >` (void, non-const): `tuple_type` is
`tuple< args_type, T* >`. -/
def Skeleton_void (T : Type) (Args : List Type) : Specialization T Unit Args where
  method_type := T → Fn Args (Unit × T)
  slots := []
  get_return := fun _ => ()
  call := fun M data s =>
    match tuple_call_method M (get1 data) (get0 data) s with
    | none => none
    | some (_, s') => some (data, s')

/-- The static member `Skeleton< T, void, Args... >::constructor`: `return new(SYSTEM) T( args... )`,
`ctor` being the constructor `T( Args... )` of the privileged type. -/
def Skeleton_void.constructor {T : Type} {Args : List Type} (ctor : Fn Args T) :
    Fn Args (Kernel T Ptr) :=
  Fn.map new_SYSTEM ctor

/-- The trampoline `Skeleton< T, void, Args... >::construct`:
`get<1>( *tup ) = tuple_call( constructor, get<0>(*tup) )`. -/
def Skeleton_void.construct {T : Type} {Args : List Type} (ctor : Fn Args T)
    (data : tuple [tuple Args, Ptr]) : Kernel T (tuple [tuple Args, Ptr]) := fun s =>
  match tuple_call_kernel (Skeleton_void.constructor ctor) (get0 data) s with
  | none => none
  | some (p, s') => some (set1 data p, s')

/-- The specialisation `struct Skeleton< const T, R, Args... >` (non-void, const): `tuple_type` is
`tuple< args_type, const T*, R >`. -/
def Skeleton_const (T R : Type) (Args : List Type) : Specialization T R Args where
  method_type := T → Fn Args R
  slots := [R]
  get_return := fun tup => get2 tup
  call := fun M data s =>
    match tuple_call_const M (get1 data) (get0 data) s with
    | none => none
    | some (r, s') => some (set2 data r, s')

/-- The specialisation `struct Skeleton< const T, void, Args... >` (void, const): `tuple_type` is
`tuple< args_type, const T* >`; the bound method `m` is the effect of its body. -/
def Skeleton_const_void (T : Type) (Args : List Type) : Specialization T Unit Args where
  method_type := T → Fn Args (Effect T)
  slots := []
  get_return := fun _ => ()
  call := fun m data s =>
    match tuple_call_const_void m (get1 data) (get0 data) s with
    | none => none
    | some (_, s') => some (data, s')

/-- The trampoline `DestructorSkeleton< T >::destructor`: `T * t = (T*) data; delete t;`. -/
def DestructorSkeleton.destructor {T : Type} (data : Ptr) : Kernel T Unit :=
  delete data

/-! ## `FunctionSkeleton` family -/

/-- What the stub macros use of the specialisation of `FunctionSkeleton` that
`FunctionSkeleton< ret, Args... >` selects: the kind of function pointer
`function` is parameterised by, the components of `tuple_type` that follow the
argument tuple, `get_return` and `function< F >::call`. -/
structure FunctionSpecialization (T R : Type) (Args : List Type) where
  function_type : Type
  slots : List Type
  get_return : tuple (tuple Args :: slots) → R
  call : function_type → tuple (tuple Args :: slots) →
    Kernel T (tuple (tuple Args :: slots))

/-- The member `tuple_type` of a specialisation. -/
@[reducible] def FunctionSpecialization.tuple_type {T R : Type} {Args : List Type}
    (FS : FunctionSpecialization T R Args) : Type :=
  tuple (tuple Args :: FS.slots)

/-- The primary template `template< typename R, typename ... Args > struct FunctionSkeleton`:
`tuple_type` is `tuple< args_type, R >`. -/
def FunctionSkeleton (T R : Type) (Args : List Type) : FunctionSpecialization T R Args where
  function_type := Fn Args R
  slots := [R]
  get_return := fun tup => get1 tup
  call := fun F data s =>
    match tuple_call F (get0 data) s with
    | none => none
    | some (r, s') => some (set1 data r, s')

/-- The specialisation `struct FunctionSkeleton< void, Args... >`: `tuple_type` is
`tuple< args_type >`; the bound function `F` is the effect of its body. -/
def FunctionSkeleton_void (T : Type) (Args : List Type) :
    FunctionSpecialization T Unit Args where
  function_type := Fn Args (Effect T)
  slots := []
  get_return := fun _ => ()
  call := fun F data s =>
    match tuple_call_void F (get0 data) s with
    | none => none
    | some (_, s') => some (data, s')

end EPOS_Kernel

/-! ## Stub generation macros

Each macro is a function of its macro arguments (the bound operation and the
specialisation its `cv` and `ret` arguments select), of the stub object, of
the indeterminate initial contents `tup` of the stack packet and of the
parameters of the generated member. -/

open EPOS_Kernel

/-- The class opened by `STUB_BEGIN( stub_name, skeleton_class )`: its only
member is `skeleton_type * object`. -/
structure Stub where
  object : Ptr
  deriving DecidableEq, Repr

/-- The destructor `~stub_name()` that `STUB_BEGIN` generates. -/
def Stub.destructor {T : Type} (self : Stub) : Kernel T Unit :=
  syscall DestructorSkeleton.destructor self.object

/-- Macro `STUB_CONSTRUCTOR_0( stub_name )`. -/
def STUB_CONSTRUCTOR_0 {T : Type} (ctor : T) (tup : tuple [tuple [], Ptr]) :
    Kernel T Stub := fun s =>
  match syscall (@Skeleton_void.construct T [] ctor) tup s with
  | none => none
  | some (tup, s) => some (⟨get1 tup⟩, s)

/-- Macro `STUB_CONSTRUCTOR_1( stub_name, t1, p1 )`. -/
def STUB_CONSTRUCTOR_1 {T t1 : Type} (ctor : t1 → T) (tup : tuple [tuple [t1], Ptr])
    (p1 : t1) : Kernel T Stub := fun s =>
  let tup := set0 tup (p1, ())
  match syscall (@Skeleton_void.construct T [t1] ctor) tup s with
  | none => none
  | some (tup, s) => some (⟨get1 tup⟩, s)

/-- Macro `STUB_CONSTRUCTOR_2( stub_name, t1, p1, t2, p2 )`. -/
def STUB_CONSTRUCTOR_2 {T t1 t2 : Type} (ctor : t1 → t2 → T)
    (tup : tuple [tuple [t1, t2], Ptr]) (p1 : t1) (p2 : t2) : Kernel T Stub := fun s =>
  let tup := set0 tup (p1, p2, ())
  match syscall (@Skeleton_void.construct T [t1, t2] ctor) tup s with
  | none => none
  | some (tup, s) => some (⟨get1 tup⟩, s)

/-- Macro `STUB_CONSTRUCTOR_3( stub_name, t1, p1, t2, p2, t3, p3 )`. -/
def STUB_CONSTRUCTOR_3 {T t1 t2 t3 : Type} (ctor : t1 → t2 → t3 → T)
    (tup : tuple [tuple [t1, t2, t3], Ptr]) (p1 : t1) (p2 : t2) (p3 : t3) :
    Kernel T Stub := fun s =>
  let tup := set0 tup (p1, p2, p3, ())
  match syscall (@Skeleton_void.construct T [t1, t2, t3] ctor) tup s with
  | none => none
  | some (tup, s) => some (⟨get1 tup⟩, s)

/-- Macro `STUB_FUNCTION_0( ret, name, skeleton )`. -/
def STUB_FUNCTION_0 {T ret : Type} (FS : FunctionSpecialization T ret [])
    (skeleton : FS.function_type) (tup : FS.tuple_type) : Kernel T ret := fun s =>
  match syscall (FS.call skeleton) tup s with
  | none => none
  | some (tup, s) => some (FS.get_return tup, s)

/-- Macro `STUB_FUNCTION_1( ret, name, t1, p1, skeleton )`. -/
def STUB_FUNCTION_1 {T ret t1 : Type} (FS : FunctionSpecialization T ret [t1])
    (skeleton : FS.function_type) (tup : FS.tuple_type) (p1 : t1) : Kernel T ret := fun s =>
  let tup := set0 tup (p1, ())
  match syscall (FS.call skeleton) tup s with
  | none => none
  | some (tup, s) => some (FS.get_return tup, s)

/-- Macro `STUB_FUNCTION_2( ret, name, t1, p1, t2, p2, skeleton )`: the generated
function is `ret name( t1 p1 )`, and nothing is stored in `get<0>( tup )`
before the gate call. -/
def STUB_FUNCTION_2 {T ret t1 t2 : Type} (FS : FunctionSpecialization T ret [t1, t2])
    (skeleton : FS.function_type) (tup : FS.tuple_type) (_p1 : t1) : Kernel T ret := fun s =>
  match syscall (FS.call skeleton) tup s with
  | none => none
  | some (tup, s) => some (FS.get_return tup, s)

/-- Macro `STUB_METHOD_0( ret, name, cv )`. -/
def STUB_METHOD_0 {T ret : Type} (Sk : Specialization T ret []) (name : Sk.method_type)
    (this : Stub) (tup : Sk.tuple_type) : Kernel T ret := fun s =>
  let tup := set1 tup this.object
  match syscall (Sk.call name) tup s with
  | none => none
  | some (tup, s) => some (Sk.get_return tup, s)

/-- Macro `STUB_METHOD_1( ret, name, t1, p1, cv )`. -/
def STUB_METHOD_1 {T ret t1 : Type} (Sk : Specialization T ret [t1])
    (name : Sk.method_type) (this : Stub) (tup : Sk.tuple_type) (p1 : t1) :
    Kernel T ret := fun s =>
  let tup := set0 tup (p1, ())
  let tup := set1 tup this.object
  match syscall (Sk.call name) tup s with
  | none => none
  | some (tup, s) => some (Sk.get_return tup, s)

/-- Macro `STUB_METHOD_2( ret, name, t1, p1, t2, p2, cv )`. -/
def STUB_METHOD_2 {T ret t1 t2 : Type} (Sk : Specialization T ret [t1, t2])
    (name : Sk.method_type) (this : Stub) (tup : Sk.tuple_type) (p1 : t1) (p2 : t2) :
    Kernel T ret := fun s =>
  let tup := set0 tup (p1, p2, ())
  let tup := set1 tup this.object
  match syscall (Sk.call name) tup s with
  | none => none
  | some (tup, s) => some (Sk.get_return tup, s)

/-- Macro `STUB_METHOD_3( ret, name, t1, p1, t2, p2, t3, p3, cv )`. -/
def STUB_METHOD_3 {T ret t1 t2 t3 : Type} (Sk : Specialization T ret [t1, t2, t3])
    (name : Sk.method_type) (this : Stub) (tup : Sk.tuple_type) (p1 : t1) (p2 : t2)
    (p3 : t3) : Kernel T ret := fun s =>
  let tup := set0 tup (p1, p2, p3, ())
  let tup := set1 tup this.object
  match syscall (Sk.call name) tup s with
  | none => none
  | some (tup, s) => some (Sk.get_return tup, s)

/-! ## `Alarm` (`include/alarm_kernel.h`) -/

namespace Alarm

/-- Member `Alarm::period()`: `1000000 / frequency()`. `Hertz`, `Microsecond`
and `Tick` are declared outside the sources; they are taken as unsigned
integers of `W` bits, `W` a parameter, and `frequency` is what
`_timer->frequency()` returns. Division by zero is `none`. -/
def period (W frequency : Nat) : Option Nat :=
  if frequency % 2 ^ W = 0 then none
  else some ((1000000 % 2 ^ W) / (frequency % 2 ^ W) % 2 ^ W)

/-- Member `Alarm::ticks( time )`: `(time + period() / 2) / period()`, in unsigned
arithmetic of `W` bits. -/
def ticks (W frequency time : Nat) : Option Nat :=
  match period W frequency with
  | none => none
  | some p => if p = 0 then none else some ((time % 2 ^ W + p / 2) % 2 ^ W / p)

end Alarm

/-! ## Example privileged code of the spec's scenarios -/

/-- Modelled from the spec: the counter-like privileged type of the scenario
"construct a counter-like stub via a zero-argument constructor; call increment
with 5, then with 3; call read-only value"; no such class is in the sources.
The count is a mathematical integer. -/
structure Counter where
  count : Int
  deriving DecidableEq, Repr

/-- Modelled from the spec: the zero-argument constructor `Counter()` of the
scenario; the count starts at 0. -/
def Counter.ctor : Counter := ⟨0⟩

/-- Modelled from the spec: the mutating `void increment( n )` of the scenario. -/
def Counter.increment (c : Counter) (n : Int) : Unit × Counter := ((), ⟨c.count + n⟩)

/-- Modelled from the spec: the read-only `value() const` of the scenario. -/
def Counter.value (c : Counter) : Int := c.count

/-- Modelled from the spec: the two-argument free function `add` of the scenario
"a two-argument free-function add stub called with (2, 3)". -/
def add (a b : Int) : Int := a + b

/-- A stub call and the direct call agree from the state `s`: both return, with
the same value `r` and leaving the same heap `heap`; the direct call records
one invocation of the method on the object at `obj`, the stub call records
one gate transfer followed by one invocation of the method on that object. -/
def MethodAgree {T R : Type} (stub direct : Kernel T R) (s : System T) (obj : Ptr) (r : R)
    (heap : List (Option T)) : Prop :=
  direct s = some (r, ⟨heap, s.trace ++ [Event.method obj]⟩) ∧
    stub s = some (r, ⟨heap, s.trace ++ [Event.syscall, Event.method obj]⟩)

/-- A stub call and the direct call of a free function agree from the state
`s`: both return, with the same value `r` and leaving the same heap `heap`;
the direct call records one invocation of the function, the stub call one gate
transfer followed by one invocation of the function. -/
def FunctionAgree {T R : Type} (stub direct : Kernel T R) (s : System T) (r : R)
    (heap : List (Option T)) : Prop :=
  direct s = some (r, ⟨heap, s.trace ++ [Event.function]⟩) ∧
    stub s = some (r, ⟨heap, s.trace ++ [Event.syscall, Event.function]⟩)

/-- The body of a side-effect-free `void` operation, whatever it computes: the
heap stays as it is. -/
def no_effect {T : Type} (_u : Unit) : Effect T := fun heap => heap

/-- The effect of privileged code on the privileged side, its return value
left out. -/
def effect {T R : Type} (k : Kernel T R) (s : System T) : Option (System T) :=
  (k s).map Prod.snd

/-! ## Auxiliary facts -/

theorem EPOS_Kernel.Fn.apply_map {Args : List Type} {R S : Type} (k : R → S) (f : Fn Args R)
    (args : tuple Args) : Fn.apply (Fn.map k f) args = k (Fn.apply f args) := by
  induction Args with
  | nil => rfl
  | cons A As ih =>
    obtain ⟨a, rest⟩ := args
    exact ih (f a) rest

theorem EPOS_Kernel.System.deref_length {T : Type} (s : System T) : s.deref s.heap.length = none := by
  simp [System.deref]

theorem EPOS_Kernel.System.deref_alloc {T : Type} (heap : List (Option T)) (trace : List Event) (t : T) :
    System.deref ⟨heap ++ [some t], trace⟩ heap.length = some t := by
  simp [System.deref]

theorem EPOS_Kernel.System.deref_alloc_ne {T : Type} (heap : List (Option T)) (trace trace' : List Event)
    (x : Option T) (q : Ptr) (hq : q ≠ heap.length) :
    System.deref ⟨heap ++ [x], trace⟩ q = System.deref ⟨heap, trace'⟩ q := by
  rcases Nat.lt_or_ge q heap.length with h | h
  · simp [System.deref, List.getElem?_append_left h]
  · have h' : heap.length < q := lt_of_le_of_ne h (Ne.symm hq)
    have h1 : (heap ++ [x])[q]? = none := List.getElem?_eq_none (by simp; omega)
    have h2 : heap[q]? = none := List.getElem?_eq_none (by omega)
    simp [System.deref, h1, h2]

theorem EPOS_Kernel.System.live_alloc {T : Type} (heap : List (Option T)) (trace trace' : List Event)
    (t : T) : System.live ⟨heap ++ [some t], trace⟩ = System.live ⟨heap, trace'⟩ + 1 := by
  simp [System.live, List.countP_append]

theorem List.set_length_append_singleton {α : Type} (l : List α) (x y : α) :
    (l ++ [x]).set l.length y = l ++ [y] := by
  induction l with
  | nil => rfl
  | cons a l ih => simp [List.set, ih]

theorem List.countP_isSome_set_none {α : Type} (l : List (Option α)) (p : Nat) (a : α)
    (h : l[p]? = some (some a)) :
    (l.set p none).countP Option.isSome + 1 = l.countP Option.isSome := by
  induction l generalizing p with
  | nil => simp at h
  | cons x l ih =>
    cases p with
    | zero =>
      simp at h
      subst h
      simp [List.countP_cons]
    | succ p =>
      simp at h
      have := ih p h
      simp only [List.set_cons_succ, List.countP_cons]
      omega

theorem EPOS_Kernel.System.deref_eq_some {T : Type} (s : System T) (p : Ptr) (t : T)
    (h : s.deref p = some t) : s.heap[p]? = some (some t) := by
  unfold System.deref at h
  cases hc : s.heap[p]? with
  | none => simp [hc] at h
  | some x =>
    cases x with
    | none => simp [hc] at h
    | some y =>
      simp [hc] at h
      simp [h]

/-! ## Claims -/

/-- C1: for every arity 0 to 3 and for each of the four specialisations of
`Skeleton` (mutating or read-only, non-void or void), the method generated by
`STUB_METHOD_n`, through a gate that just runs the trampoline on the packet,
agrees with the direct call `object->m( p1..pn )` on a live held object: both
return the same value and leave the same heap, in which the held object is as
the method leaves it (for a `void` read-only method, the heap its body leaves),
and the method is invoked exactly once, on the held object, with the arguments
in declaration order. -/
theorem stub_method_agrees_with_direct_call {T R A1 A2 A3 : Type} (s : System T)
    (this : Stub) (t : T) (hlive : s.deref this.object = some t)
    (p1 : A1) (p2 : A2) (p3 : A3) :
    ((∀ (M : T → R × T) tup,
        MethodAgree (STUB_METHOD_0 (Skeleton T R []) M this tup)
          (invoke this.object (fun x => M x)) s this.object
          (M t).1 (s.heap.set this.object (some (M t).2))) ∧
      (∀ (M : T → A1 → R × T) tup,
        MethodAgree (STUB_METHOD_1 (Skeleton T R [A1]) M this tup p1)
          (invoke this.object (fun x => M x p1)) s this.object
          (M t p1).1 (s.heap.set this.object (some (M t p1).2))) ∧
      (∀ (M : T → A1 → A2 → R × T) tup,
        MethodAgree (STUB_METHOD_2 (Skeleton T R [A1, A2]) M this tup p1 p2)
          (invoke this.object (fun x => M x p1 p2)) s this.object
          (M t p1 p2).1 (s.heap.set this.object (some (M t p1 p2).2))) ∧
      (∀ (M : T → A1 → A2 → A3 → R × T) tup,
        MethodAgree (STUB_METHOD_3 (Skeleton T R [A1, A2, A3]) M this tup p1 p2 p3)
          (invoke this.object (fun x => M x p1 p2 p3)) s this.object
          (M t p1 p2 p3).1 (s.heap.set this.object (some (M t p1 p2 p3).2)))) ∧
    ((∀ (M : T → R) tup,
        MethodAgree (STUB_METHOD_0 (Skeleton_const T R []) M this tup)
          (invoke_const this.object (fun x => M x)) s this.object (M t) s.heap) ∧
      (∀ (M : T → A1 → R) tup,
        MethodAgree (STUB_METHOD_1 (Skeleton_const T R [A1]) M this tup p1)
          (invoke_const this.object (fun x => M x p1)) s this.object (M t p1) s.heap) ∧
      (∀ (M : T → A1 → A2 → R) tup,
        MethodAgree (STUB_METHOD_2 (Skeleton_const T R [A1, A2]) M this tup p1 p2)
          (invoke_const this.object (fun x => M x p1 p2)) s this.object (M t p1 p2) s.heap) ∧
      (∀ (M : T → A1 → A2 → A3 → R) tup,
        MethodAgree (STUB_METHOD_3 (Skeleton_const T R [A1, A2, A3]) M this tup p1 p2 p3)
          (invoke_const this.object (fun x => M x p1 p2 p3)) s this.object
          (M t p1 p2 p3) s.heap)) ∧
    ((∀ (M : T → Unit × T) tup,
        MethodAgree (STUB_METHOD_0 (Skeleton_void T []) M this tup)
          (invoke this.object (fun x => M x)) s this.object
          () (s.heap.set this.object (some (M t).2))) ∧
      (∀ (M : T → A1 → Unit × T) tup,
        MethodAgree (STUB_METHOD_1 (Skeleton_void T [A1]) M this tup p1)
          (invoke this.object (fun x => M x p1)) s this.object
          () (s.heap.set this.object (some (M t p1).2))) ∧
      (∀ (M : T → A1 → A2 → Unit × T) tup,
        MethodAgree (STUB_METHOD_2 (Skeleton_void T [A1, A2]) M this tup p1 p2)
          (invoke this.object (fun x => M x p1 p2)) s this.object
          () (s.heap.set this.object (some (M t p1 p2).2))) ∧
      (∀ (M : T → A1 → A2 → A3 → Unit × T) tup,
        MethodAgree (STUB_METHOD_3 (Skeleton_void T [A1, A2, A3]) M this tup p1 p2 p3)
          (invoke this.object (fun x => M x p1 p2 p3)) s this.object
          () (s.heap.set this.object (some (M t p1 p2 p3).2)))) ∧
    ((∀ (M : T → Effect T) tup,
        MethodAgree (STUB_METHOD_0 (Skeleton_const_void T []) M this tup)
          (invoke_const_void this.object (fun x => M x)) s this.object () (M t s.heap)) ∧
      (∀ (M : T → A1 → Effect T) tup,
        MethodAgree (STUB_METHOD_1 (Skeleton_const_void T [A1]) M this tup p1)
          (invoke_const_void this.object (fun x => M x p1)) s this.object ()
          (M t p1 s.heap)) ∧
      (∀ (M : T → A1 → A2 → Effect T) tup,
        MethodAgree (STUB_METHOD_2 (Skeleton_const_void T [A1, A2]) M this tup p1 p2)
          (invoke_const_void this.object (fun x => M x p1 p2)) s this.object ()
          (M t p1 p2 s.heap)) ∧
      (∀ (M : T → A1 → A2 → A3 → Effect T) tup,
        MethodAgree (STUB_METHOD_3 (Skeleton_const_void T [A1, A2, A3]) M this tup p1 p2 p3)
          (invoke_const_void this.object (fun x => M x p1 p2 p3)) s this.object ()
          (M t p1 p2 p3 s.heap))) := by
  have hgate : System.deref ⟨s.heap, s.trace ++ [Event.syscall]⟩ this.object = some t := hlive
  refine ⟨⟨?_, ?_, ?_, ?_⟩, ⟨?_, ?_, ?_, ?_⟩, ⟨?_, ?_, ?_, ?_⟩, ⟨?_, ?_, ?_, ?_⟩⟩ <;>
    intro M tup <;>
    simp [MethodAgree, STUB_METHOD_0, STUB_METHOD_1, STUB_METHOD_2, STUB_METHOD_3, Skeleton,
      Skeleton_const, Skeleton_void, Skeleton_const_void, syscall, tuple_call_method,
      tuple_call_const, tuple_call_const_void, invoke, invoke_const, invoke_const_void,
      Fn.apply, get0, get1, get2, set0, set1, set2, hlive, hgate]

/-- Witness of C1: on the heap holding one `Counter` of count 1 at address 0,
`increment( 5 )` through the stub leaves the count 6, as the direct call does;
and a `void` read-only method whose body appends to the heap a `Counter` of
count the receiver's plus its argument, called with 5 through the stub, leaves
the heap with the second cell of count 6, as the direct call does. -/
theorem stub_method_agrees_with_direct_call_witness :
    System.deref (⟨[some ⟨1⟩], []⟩ : System Counter) 0 = some ⟨1⟩ ∧
      MethodAgree
        (STUB_METHOD_1 (Skeleton_void Counter [Int]) Counter.increment ⟨0⟩ ((0, ()), 7, ()) 5)
        (invoke 0 (fun x => Counter.increment x 5)) ⟨[some ⟨1⟩], []⟩ 0 () [some ⟨6⟩] ∧
      MethodAgree
        (STUB_METHOD_1 (Skeleton_const_void Counter [Int])
          (fun c n heap => heap ++ [some ⟨c.count + n⟩]) ⟨0⟩ ((0, ()), 7, ()) 5)
        (invoke_const_void 0 (fun x heap => heap ++ [some ⟨x.count + 5⟩]))
        ⟨[some ⟨1⟩], []⟩ 0 () [some ⟨1⟩, some ⟨6⟩] :=
  ⟨rfl, (@stub_method_agrees_with_direct_call Counter Int Int Int Int ⟨[some ⟨1⟩], []⟩ ⟨0⟩ ⟨1⟩
      rfl 5 0 0).2.2.1.2.1 Counter.increment ((0, ()), 7, ()),
    (@stub_method_agrees_with_direct_call Counter Int Int Int Int ⟨[some ⟨1⟩], []⟩ ⟨0⟩ ⟨1⟩
      rfl 5 0 0).2.2.2.2.1 (fun c n heap => heap ++ [some ⟨c.count + n⟩]) ((0, ()), 7, ())⟩

theorem STUB_FUNCTION_2_eq {T R A1 A2 : Type} (F : A1 → A2 → R)
    (tup : tuple [tuple [A1, A2], R]) (p1 : A1) (s : System T) :
    STUB_FUNCTION_2 (FunctionSkeleton T R [A1, A2]) F tup p1 s =
      some (F (get0 (get0 tup)) (get1 (get0 tup)),
        ⟨s.heap, s.trace ++ [Event.syscall, Event.function]⟩) := by
  simp [STUB_FUNCTION_2, FunctionSkeleton, syscall, tuple_call, invoke_function, Fn.apply,
    get0, get1, set1]

/-- C2 (evaluation of the code at the failing input): the function generated by
`STUB_FUNCTION_2` for `add` takes one parameter only and never stores an
argument in the packet; called with 2 on a packet whose storage holds
`(0, 0)` it returns `add( 0, 0 ) = 0`, whereas `add( 2, 3 ) = 5`; whatever the
packet holds, it returns `add` of the packet's initial contents, and the same
value for every argument. -/
theorem STUB_FUNCTION_2_add_ignores_its_argument :
    STUB_FUNCTION_2 (FunctionSkeleton Unit Int [Int, Int]) add ((0, 0, ()), 0, ()) 2 ⟨[], []⟩ =
        some (0, ⟨[], [Event.syscall, Event.function]⟩) ∧
      add 2 3 = 5 ∧
      ∀ (tup : tuple [tuple [Int, Int], Int]) (p1 q1 : Int) (s : System Unit),
        STUB_FUNCTION_2 (FunctionSkeleton Unit Int [Int, Int]) add tup p1 s =
            some (add (get0 (get0 tup)) (get1 (get0 tup)),
              ⟨s.heap, s.trace ++ [Event.syscall, Event.function]⟩) ∧
          STUB_FUNCTION_2 (FunctionSkeleton Unit Int [Int, Int]) add tup p1 s =
            STUB_FUNCTION_2 (FunctionSkeleton Unit Int [Int, Int]) add tup q1 s := by
  refine ⟨rfl, by decide, ?_⟩
  intro tup p1 q1 s
  rw [STUB_FUNCTION_2_eq, STUB_FUNCTION_2_eq]
  exact ⟨rfl, rfl⟩

/-- C3: for arities 0 and 1 and for both specialisations of `FunctionSkeleton`
(non-void and void), the function generated by `STUB_FUNCTION_0` /
`STUB_FUNCTION_1`, through a gate that just runs the trampoline on the packet,
returns what the direct call `F()` / `F( p1 )` returns, leaves the heap the
direct call leaves (for a `void` function, the heap its body leaves) and
invokes `F` exactly once, on `p1`, whatever the packet held before. -/
theorem stub_function_agrees_with_direct_call {T R A1 : Type} (s : System T) (p1 : A1) :
    (∀ (F : R) tup,
        FunctionAgree (STUB_FUNCTION_0 (FunctionSkeleton T R []) F tup)
          (invoke_function F) s F s.heap) ∧
      (∀ (F : A1 → R) tup,
        FunctionAgree (STUB_FUNCTION_1 (FunctionSkeleton T R [A1]) F tup p1)
          (invoke_function (F p1)) s (F p1) s.heap) ∧
      (∀ (F : Effect T) tup,
        FunctionAgree (STUB_FUNCTION_0 (FunctionSkeleton_void T []) F tup)
          (invoke_void_function F) s () (F s.heap)) ∧
      (∀ (F : A1 → Effect T) tup,
        FunctionAgree (STUB_FUNCTION_1 (FunctionSkeleton_void T [A1]) F tup p1)
          (invoke_void_function (F p1)) s () (F p1 s.heap)) := by
  refine ⟨?_, ?_, ?_, ?_⟩ <;> intro F tup <;>
    simp [FunctionAgree, STUB_FUNCTION_0, STUB_FUNCTION_1, FunctionSkeleton,
      FunctionSkeleton_void, syscall, tuple_call, tuple_call_void, invoke_function,
      invoke_void_function, Fn.apply, get0, get1, set0, set1]

theorem EPOS_Kernel.Skeleton_void.construct_eq {T : Type} {Args : List Type} (ctor : Fn Args T)
    (data : tuple [tuple Args, Ptr]) (s : System T) :
    Skeleton_void.construct ctor data s =
      some (set1 data s.heap.length, ⟨s.heap ++ [some (Fn.apply ctor (get0 data))],
        s.trace ++ [Event.new s.heap.length]⟩) := by
  simp [Skeleton_void.construct, Skeleton_void.constructor, tuple_call_kernel, Fn.apply_map,
    new_SYSTEM]

theorem STUB_CONSTRUCTOR_eq {T A1 A2 A3 : Type} (s : System T) (p1 : A1) (p2 : A2) (p3 : A3) :
    (∀ (ctor : T) tup,
        STUB_CONSTRUCTOR_0 ctor tup s = some (⟨s.heap.length⟩, ⟨s.heap ++ [some ctor],
          s.trace ++ [Event.syscall, Event.new s.heap.length]⟩)) ∧
      (∀ (ctor : A1 → T) tup,
        STUB_CONSTRUCTOR_1 ctor tup p1 s = some (⟨s.heap.length⟩, ⟨s.heap ++ [some (ctor p1)],
          s.trace ++ [Event.syscall, Event.new s.heap.length]⟩)) ∧
      (∀ (ctor : A1 → A2 → T) tup,
        STUB_CONSTRUCTOR_2 ctor tup p1 p2 s =
          some (⟨s.heap.length⟩, ⟨s.heap ++ [some (ctor p1 p2)],
            s.trace ++ [Event.syscall, Event.new s.heap.length]⟩)) ∧
      (∀ (ctor : A1 → A2 → A3 → T) tup,
        STUB_CONSTRUCTOR_3 ctor tup p1 p2 p3 s =
          some (⟨s.heap.length⟩, ⟨s.heap ++ [some (ctor p1 p2 p3)],
            s.trace ++ [Event.syscall, Event.new s.heap.length]⟩)) := by
  refine ⟨?_, ?_, ?_, ?_⟩ <;> intro ctor tup <;>
    simp [STUB_CONSTRUCTOR_0, STUB_CONSTRUCTOR_1, STUB_CONSTRUCTOR_2, STUB_CONSTRUCTOR_3,
      syscall, Skeleton_void.construct_eq, Fn.apply, get0, get1, set0, set1]

/-- C5: for every argument list (so for arities 0 to 3) the trampoline
`Skeleton< T, void, Args... >::construct` allocates exactly one object,
initialised with the packet's arguments in order, at a fresh address, writes
that address into component 1 of the packet and leaves component 0 as it was;
the allocation leaves every other address as it was and adds one live object;
and `STUB_CONSTRUCTOR_0` .. `STUB_CONSTRUCTOR_3` hold exactly that address as
`object`, whatever the packet contained before the gate call. -/
theorem construct_allocates_one_object {T A1 A2 A3 : Type} (s : System T) (p1 : A1)
    (p2 : A2) (p3 : A3) :
    (∀ (Args : List Type) (ctor : Fn Args T) (data : tuple [tuple Args, Ptr]),
        Skeleton_void.construct ctor data s =
            some (set1 data s.heap.length, ⟨s.heap ++ [some (Fn.apply ctor (get0 data))],
              s.trace ++ [Event.new s.heap.length]⟩) ∧
          get1 (set1 data s.heap.length) = s.heap.length ∧
          get0 (set1 data s.heap.length) = get0 data) ∧
      (∀ (t : T) (trace : List Event),
        s.deref s.heap.length = none ∧
          System.deref ⟨s.heap ++ [some t], trace⟩ s.heap.length = some t ∧
          (∀ q, q ≠ s.heap.length → System.deref ⟨s.heap ++ [some t], trace⟩ q = s.deref q) ∧
          System.live ⟨s.heap ++ [some t], trace⟩ = s.live + 1) ∧
      (∀ (ctor : T) tup,
        STUB_CONSTRUCTOR_0 ctor tup s = some (⟨s.heap.length⟩, ⟨s.heap ++ [some ctor],
          s.trace ++ [Event.syscall, Event.new s.heap.length]⟩)) ∧
      (∀ (ctor : A1 → T) tup,
        STUB_CONSTRUCTOR_1 ctor tup p1 s = some (⟨s.heap.length⟩, ⟨s.heap ++ [some (ctor p1)],
          s.trace ++ [Event.syscall, Event.new s.heap.length]⟩)) ∧
      (∀ (ctor : A1 → A2 → T) tup,
        STUB_CONSTRUCTOR_2 ctor tup p1 p2 s =
          some (⟨s.heap.length⟩, ⟨s.heap ++ [some (ctor p1 p2)],
            s.trace ++ [Event.syscall, Event.new s.heap.length]⟩)) ∧
      (∀ (ctor : A1 → A2 → A3 → T) tup,
        STUB_CONSTRUCTOR_3 ctor tup p1 p2 p3 s =
          some (⟨s.heap.length⟩, ⟨s.heap ++ [some (ctor p1 p2 p3)],
            s.trace ++ [Event.syscall, Event.new s.heap.length]⟩)) := by
  refine ⟨fun Args ctor data => ⟨Skeleton_void.construct_eq ctor data s, rfl, rfl⟩,
    fun t trace => ⟨System.deref_length s, System.deref_alloc _ _ _,
      fun q hq => System.deref_alloc_ne _ _ s.trace _ q hq, System.live_alloc _ _ s.trace _⟩,
    STUB_CONSTRUCTOR_eq s p1 p2 p3⟩

theorem Stub.destructor_eq {T : Type} (this : Stub) (s : System T) (t : T)
    (hlive : s.deref this.object = some t) :
    this.destructor s = some ((), ⟨s.heap.set this.object none,
      s.trace ++ [Event.syscall, Event.delete this.object]⟩) := by
  have hgate : System.deref ⟨s.heap, s.trace ++ [Event.syscall]⟩ this.object = some t := hlive
  simp [Stub.destructor, syscall, DestructorSkeleton.destructor, delete, hgate]

theorem EPOS_Kernel.System.deref_release {T : Type} (heap : List (Option T)) (trace : List Event)
    (p : Ptr) : System.deref ⟨heap.set p none, trace⟩ p = none := by
  rcases Nat.lt_or_ge p heap.length with h | h
  · simp [System.deref, List.getElem?_set, h]
  · have h1 : (heap.set p none)[p]? = none := List.getElem?_eq_none (by simpa using h)
    simp [System.deref, h1]

theorem EPOS_Kernel.System.deref_release_ne {T : Type} (heap : List (Option T)) (trace trace' : List Event)
    (p q : Ptr) (hq : q ≠ p) :
    System.deref ⟨heap.set p none, trace⟩ q = System.deref ⟨heap, trace'⟩ q := by
  simp [System.deref, List.getElem?_set_ne (Ne.symm hq)]

/-- C7: the destructor `~stub_name()` is one gate call, of the trampoline
`DestructorSkeleton< skeleton_type >::destructor` with the held reference as
data; that trampoline releases the object its data pointer refers to, once;
so destroying a stub whose held object is live records exactly one gate
transfer and one release, of the held object, after which that object is no
longer live, every other address is as it was and there is one live object
fewer. -/
theorem stub_destructor_releases_once {T : Type} (s : System T) (this : Stub) (t : T)
    (hlive : s.deref this.object = some t) :
    (this.destructor : Kernel T Unit) = syscall DestructorSkeleton.destructor this.object ∧
      DestructorSkeleton.destructor this.object s =
        some ((), ⟨s.heap.set this.object none, s.trace ++ [Event.delete this.object]⟩) ∧
      (∃ s', this.destructor s = some ((), s') ∧
        s'.heap = s.heap.set this.object none ∧
        s'.trace = s.trace ++ [Event.syscall, Event.delete this.object] ∧
        s'.deref this.object = none ∧
        (∀ q, q ≠ this.object → s'.deref q = s.deref q) ∧
        s'.live + 1 = s.live) := by
  refine ⟨rfl, ?_, _, Stub.destructor_eq this s t hlive, rfl, rfl,
    System.deref_release _ _ _, fun q hq => System.deref_release_ne _ _ s.trace _ q hq, ?_⟩
  · simp [DestructorSkeleton.destructor, delete, hlive]
  · exact List.countP_isSome_set_none _ _ t (System.deref_eq_some s _ t hlive)

/-- Witness of C7: destroying the stub that holds address 0 of a heap whose
cells 0 and 1 are live releases cell 0 and leaves one live object. -/
theorem stub_destructor_releases_once_witness :
    System.deref (⟨[some ⟨4⟩, some ⟨9⟩], []⟩ : System Counter) 0 = some ⟨4⟩ ∧
      ∃ s', Stub.destructor ⟨0⟩ (⟨[some ⟨4⟩, some ⟨9⟩], []⟩ : System Counter) = some ((), s') ∧
        s'.heap = [none, some ⟨9⟩] ∧
        s'.trace = [Event.syscall, Event.delete 0] ∧
        s'.deref 0 = none ∧
        (∀ q, q ≠ 0 → s'.deref q = System.deref ⟨[some ⟨4⟩, some ⟨9⟩], []⟩ q) ∧
        s'.live + 1 = 2 :=
  ⟨rfl, (stub_destructor_releases_once (⟨[some ⟨4⟩, some ⟨9⟩], []⟩ : System Counter) ⟨0⟩ ⟨4⟩
    rfl).2.2⟩

theorem STUB_METHOD_read_only_effect {T R B1 B2 B3 : Type} (s : System T) (this : Stub)
    (t : T) (hlive : s.deref this.object = some t) (b1 : B1) (b2 : B2) (b3 : B3)
    (read_only : Stub → System T → Option (System T))
    (M0 : T → R) (M1 : T → B1 → R) (M2 : T → B1 → B2 → R) (M3 : T → B1 → B2 → B3 → R)
    (m0 : tuple [tuple [], Ptr, R]) (m1 : tuple [tuple [B1], Ptr, R])
    (m2 : tuple [tuple [B1, B2], Ptr, R]) (m3 : tuple [tuple [B1, B2, B3], Ptr, R])
    (V0 : T → Unit) (V1 : T → B1 → Unit) (V2 : T → B1 → B2 → Unit)
    (V3 : T → B1 → B2 → B3 → Unit)
    (v0 : tuple [tuple [], Ptr]) (v1 : tuple [tuple [B1], Ptr])
    (v2 : tuple [tuple [B1, B2], Ptr]) (v3 : tuple [tuple [B1, B2, B3], Ptr])
    (hr : read_only ∈
      [fun st => effect (STUB_METHOD_0 (Skeleton_const T R []) M0 st m0),
        fun st => effect (STUB_METHOD_1 (Skeleton_const T R [B1]) M1 st m1 b1),
        fun st => effect (STUB_METHOD_2 (Skeleton_const T R [B1, B2]) M2 st m2 b1 b2),
        fun st => effect (STUB_METHOD_3 (Skeleton_const T R [B1, B2, B3]) M3 st m3 b1 b2 b3),
        fun st => effect (STUB_METHOD_0 (Skeleton_const_void T [])
          (fun x => no_effect (V0 x)) st v0),
        fun st => effect (STUB_METHOD_1 (Skeleton_const_void T [B1])
          (fun x y1 => no_effect (V1 x y1)) st v1 b1),
        fun st => effect (STUB_METHOD_2 (Skeleton_const_void T [B1, B2])
          (fun x y1 y2 => no_effect (V2 x y1 y2)) st v2 b1 b2),
        fun st => effect (STUB_METHOD_3 (Skeleton_const_void T [B1, B2, B3])
          (fun x y1 y2 y3 => no_effect (V3 x y1 y2 y3)) st v3 b1 b2 b3)]) :
    read_only this s =
      some ⟨s.heap, s.trace ++ [Event.syscall, Event.method this.object]⟩ := by
  have hgate : System.deref ⟨s.heap, s.trace ++ [Event.syscall]⟩ this.object = some t := hlive
  simp only [List.mem_cons, List.mem_singleton, List.not_mem_nil, or_false] at hr
  rcases hr with h | h | h | h | h | h | h | h <;> subst h <;>
    simp [effect, STUB_METHOD_0, STUB_METHOD_1, STUB_METHOD_2, STUB_METHOD_3,
      Skeleton_const, Skeleton_const_void, syscall, tuple_call_const, tuple_call_const_void,
      invoke_const, invoke_const_void, no_effect, Fn.apply, get0, get1, get2, set0, set1,
      set2, hgate]

/-- C6: from any state of the privileged side, constructing a stub (by any of
`STUB_CONSTRUCTOR_0` .. `STUB_CONSTRUCTOR_3`), calling a side-effect-free
read-only method through it (any of `STUB_METHOD_0` .. `STUB_METHOD_3` on a
const method, void or not) and destroying the stub all return; construction adds exactly one
live object, at the address the stub holds; the read-only call leaves the heap
as it is; destruction releases exactly the object construction created; and
the number of live objects is back to its value before construction. -/
theorem round_trip_restores_live_count {T R A1 A2 A3 B1 B2 B3 : Type} (s : System T)
    (ctor0 : T) (ctor1 : A1 → T) (ctor2 : A1 → A2 → T) (ctor3 : A1 → A2 → A3 → T)
    (a1 : A1) (a2 : A2) (a3 : A3)
    (c0 : tuple [tuple [], Ptr]) (c1 : tuple [tuple [A1], Ptr])
    (c2 : tuple [tuple [A1, A2], Ptr]) (c3 : tuple [tuple [A1, A2, A3], Ptr])
    (b1 : B1) (b2 : B2) (b3 : B3)
    (M0 : T → R) (M1 : T → B1 → R) (M2 : T → B1 → B2 → R) (M3 : T → B1 → B2 → B3 → R)
    (m0 : tuple [tuple [], Ptr, R]) (m1 : tuple [tuple [B1], Ptr, R])
    (m2 : tuple [tuple [B1, B2], Ptr, R]) (m3 : tuple [tuple [B1, B2, B3], Ptr, R])
    (V0 : T → Unit) (V1 : T → B1 → Unit) (V2 : T → B1 → B2 → Unit)
    (V3 : T → B1 → B2 → B3 → Unit)
    (v0 : tuple [tuple [], Ptr]) (v1 : tuple [tuple [B1], Ptr])
    (v2 : tuple [tuple [B1, B2], Ptr]) (v3 : tuple [tuple [B1, B2, B3], Ptr])
    (construct : Kernel T Stub)
    (hc : construct ∈
      [STUB_CONSTRUCTOR_0 ctor0 c0, STUB_CONSTRUCTOR_1 ctor1 c1 a1,
        STUB_CONSTRUCTOR_2 ctor2 c2 a1 a2, STUB_CONSTRUCTOR_3 ctor3 c3 a1 a2 a3])
    (read_only : Stub → System T → Option (System T))
    (hr : read_only ∈
      [fun st => effect (STUB_METHOD_0 (Skeleton_const T R []) M0 st m0),
        fun st => effect (STUB_METHOD_1 (Skeleton_const T R [B1]) M1 st m1 b1),
        fun st => effect (STUB_METHOD_2 (Skeleton_const T R [B1, B2]) M2 st m2 b1 b2),
        fun st => effect (STUB_METHOD_3 (Skeleton_const T R [B1, B2, B3]) M3 st m3 b1 b2 b3),
        fun st => effect (STUB_METHOD_0 (Skeleton_const_void T [])
          (fun x => no_effect (V0 x)) st v0),
        fun st => effect (STUB_METHOD_1 (Skeleton_const_void T [B1])
          (fun x y1 => no_effect (V1 x y1)) st v1 b1),
        fun st => effect (STUB_METHOD_2 (Skeleton_const_void T [B1, B2])
          (fun x y1 y2 => no_effect (V2 x y1 y2)) st v2 b1 b2),
        fun st => effect (STUB_METHOD_3 (Skeleton_const_void T [B1, B2, B3])
          (fun x y1 y2 y3 => no_effect (V3 x y1 y2 y3)) st v3 b1 b2 b3)]) :
    ∃ stub s1 s2 s3,
      construct s = some (stub, s1) ∧ stub.object = s.heap.length ∧
        s1.live = s.live + 1 ∧
        read_only stub s1 = some s2 ∧ s2.heap = s1.heap ∧ s2.live = s1.live ∧
        stub.destructor s2 = some ((), s3) ∧ s3.heap = s.heap ++ [none] ∧
        s3.live = s.live ∧
        s3.trace = s.trace ++ [Event.syscall, Event.new stub.object,
          Event.syscall, Event.method stub.object,
          Event.syscall, Event.delete stub.object] := by
  obtain ⟨t, hconstruct⟩ : ∃ t, construct s = some (⟨s.heap.length⟩,
      ⟨s.heap ++ [some t], s.trace ++ [Event.syscall, Event.new s.heap.length]⟩) := by
    obtain ⟨h0, h1, h2, h3⟩ := STUB_CONSTRUCTOR_eq s a1 a2 a3
    simp only [List.mem_cons, List.mem_singleton, List.not_mem_nil, or_false] at hc
    rcases hc with h | h | h | h <;> subst h
    · exact ⟨_, h0 ctor0 c0⟩
    · exact ⟨_, h1 ctor1 c1⟩
    · exact ⟨_, h2 ctor2 c2⟩
    · exact ⟨_, h3 ctor3 c3⟩
  have hlive1 := System.deref_alloc s.heap
    (s.trace ++ [Event.syscall, Event.new s.heap.length]) t
  have hread := STUB_METHOD_read_only_effect _ ⟨s.heap.length⟩ t hlive1 b1 b2 b3 read_only
    M0 M1 M2 M3 m0 m1 m2 m3 V0 V1 V2 V3 v0 v1 v2 v3 hr
  have hlive2 : System.deref ⟨s.heap ++ [some t], s.trace ++
      [Event.syscall, Event.new s.heap.length] ++
      [Event.syscall, Event.method s.heap.length]⟩ s.heap.length = some t := hlive1
  have hdestroy := Stub.destructor_eq ⟨s.heap.length⟩ _ t hlive2
  refine ⟨_, _, _, _, hconstruct, rfl, System.live_alloc _ _ s.trace _, hread, rfl, rfl,
    hdestroy, ?_, ?_, ?_⟩
  · simp [List.set_length_append_singleton]
  · simp [System.live, List.set_length_append_singleton, List.countP_append]
  · simp

/-- Witness of C6: on the empty heap, constructing a `Counter` stub, calling
`value()` through it and destroying it leaves no live object. -/
theorem round_trip_restores_live_count_witness :
    ∃ stub s1 s2 s3,
      STUB_CONSTRUCTOR_0 Counter.ctor (((), 7, ()) : tuple [tuple [], Ptr]) ⟨[], []⟩ =
          some (stub, s1) ∧ stub.object = 0 ∧
        s1.live = 0 + 1 ∧
        effect (STUB_METHOD_0 (Skeleton_const Counter Int []) Counter.value stub
          ((), 7, 0, ())) s1 = some s2 ∧ s2.heap = s1.heap ∧ s2.live = s1.live ∧
        stub.destructor s2 = some ((), s3) ∧ s3.heap = [] ++ [none] ∧
        s3.live = 0 ∧
        s3.trace = [] ++ [Event.syscall, Event.new stub.object,
          Event.syscall, Event.method stub.object,
          Event.syscall, Event.delete stub.object] :=
  @round_trip_restores_live_count Counter Int Int Int Int Int Int Int ⟨[], []⟩
    Counter.ctor (fun _ => ⟨0⟩) (fun _ _ => ⟨0⟩) (fun _ _ _ => ⟨0⟩) 0 0 0
    ((), 7, ()) ((0, ()), 7, ()) ((0, 0, ()), 7, ()) ((0, 0, 0, ()), 7, ()) 0 0 0
    Counter.value (fun c _ => c.count) (fun c _ _ => c.count) (fun c _ _ _ => c.count)
    ((), 7, 0, ()) ((0, ()), 7, 0, ()) ((0, 0, ()), 7, 0, ()) ((0, 0, 0, ()), 7, 0, ())
    (fun _ => ()) (fun _ _ => ()) (fun _ _ _ => ()) (fun _ _ _ _ => ())
    ((), 7, ()) ((0, ()), 7, ()) ((0, 0, ()), 7, ()) ((0, 0, 0, ()), 7, ())
    (STUB_CONSTRUCTOR_0 Counter.ctor ((), 7, ())) (List.mem_cons_self _ _)
    (fun st => effect (STUB_METHOD_0 (Skeleton_const Counter Int []) Counter.value st
      ((), 7, 0, ()))) (List.mem_cons_self _ _)

/-- C8: every non-void trampoline writes the return slot, and `get_return`
reads it: on any packet whose receiver is live (any packet at all for a free
function), `call` returns and leaves in the return slot (component 2 for
methods, component 1 for functions) the result of the bound operation on the
packet's receiver and arguments, whatever the slot held before; `get_return`
returns that slot's value; and each non-void or void stub returns `get_return`
of the packet as the gate call leaves it. -/
theorem return_slot_written_then_read {T R A1 A2 A3 : Type} {Args : List Type}
    (s : System T) (data : tuple [tuple Args, Ptr, R]) (t : T)
    (hlive : s.deref (get1 data) = some t) (this : Stub) (p1 : A1) (p2 : A2) (p3 : A3) :
    (∀ (M : T → Fn Args (R × T)),
        (Skeleton T R Args).call M data s =
            some (set2 data (Fn.apply (M t) (get0 data)).1,
              ⟨s.heap.set (get1 data) (some (Fn.apply (M t) (get0 data)).2),
                s.trace ++ [Event.method (get1 data)]⟩) ∧
          (∀ r0, (Skeleton T R Args).call M (set2 data r0) s =
            (Skeleton T R Args).call M data s)) ∧
      (∀ (M : T → Fn Args R),
        (Skeleton_const T R Args).call M data s =
            some (set2 data (Fn.apply (M t) (get0 data)),
              ⟨s.heap, s.trace ++ [Event.method (get1 data)]⟩) ∧
          (∀ r0, (Skeleton_const T R Args).call M (set2 data r0) s =
            (Skeleton_const T R Args).call M data s)) ∧
      (∀ (F : Fn Args R) (fdata : tuple [tuple Args, R]),
        (FunctionSkeleton T R Args).call F fdata s =
            some (set1 fdata (Fn.apply F (get0 fdata)),
              ⟨s.heap, s.trace ++ [Event.function]⟩) ∧
          (∀ r0, (FunctionSkeleton T R Args).call F (set1 fdata r0) s =
            (FunctionSkeleton T R Args).call F fdata s)) ∧
      (∀ (tup : tuple [tuple Args, Ptr, R]) (r : R),
        get2 (set2 tup r) = r ∧ (Skeleton T R Args).get_return (set2 tup r) = r ∧
          (Skeleton_const T R Args).get_return (set2 tup r) = r ∧
          (Skeleton T R Args).get_return tup = get2 tup ∧
          (Skeleton_const T R Args).get_return tup = get2 tup) ∧
      (∀ (tup : tuple [tuple Args, R]) (r : R),
        get1 (set1 tup r) = r ∧ (FunctionSkeleton T R Args).get_return (set1 tup r) = r ∧
          (FunctionSkeleton T R Args).get_return tup = get1 tup) ∧
      ((∀ (Sk : Specialization T R []) name tup,
          STUB_METHOD_0 Sk name this tup s =
            (syscall (Sk.call name) (set1 tup this.object) s).map
              (fun x => (Sk.get_return x.1, x.2))) ∧
        (∀ (Sk : Specialization T R [A1]) name tup,
          STUB_METHOD_1 Sk name this tup p1 s =
            (syscall (Sk.call name) (set1 (set0 tup (p1, ())) this.object) s).map
              (fun x => (Sk.get_return x.1, x.2))) ∧
        (∀ (Sk : Specialization T R [A1, A2]) name tup,
          STUB_METHOD_2 Sk name this tup p1 p2 s =
            (syscall (Sk.call name) (set1 (set0 tup (p1, p2, ())) this.object) s).map
              (fun x => (Sk.get_return x.1, x.2))) ∧
        (∀ (Sk : Specialization T R [A1, A2, A3]) name tup,
          STUB_METHOD_3 Sk name this tup p1 p2 p3 s =
            (syscall (Sk.call name) (set1 (set0 tup (p1, p2, p3, ())) this.object) s).map
              (fun x => (Sk.get_return x.1, x.2))) ∧
        (∀ (FS : FunctionSpecialization T R []) F tup,
          STUB_FUNCTION_0 FS F tup s =
            (syscall (FS.call F) tup s).map (fun x => (FS.get_return x.1, x.2))) ∧
        (∀ (FS : FunctionSpecialization T R [A1]) F tup,
          STUB_FUNCTION_1 FS F tup p1 s =
            (syscall (FS.call F) (set0 tup (p1, ())) s).map
              (fun x => (FS.get_return x.1, x.2))) ∧
        (∀ (FS : FunctionSpecialization T R [A1, A2]) F tup,
          STUB_FUNCTION_2 FS F tup p1 s =
            (syscall (FS.call F) tup s).map (fun x => (FS.get_return x.1, x.2)))) := by
  refine ⟨fun M => ⟨?_, fun r0 => ?_⟩, fun M => ⟨?_, fun r0 => ?_⟩,
    fun F fdata => ⟨?_, fun r0 => ?_⟩, fun tup r => ⟨rfl, rfl, rfl, rfl, rfl⟩,
    fun tup r => ⟨rfl, rfl, rfl⟩, ?stubs⟩
  case stubs =>
    refine ⟨?_, ?_, ?_, ?_, ?_, ?_, ?_⟩ <;> intro Sk name tup <;>
      simp only [STUB_METHOD_0, STUB_METHOD_1, STUB_METHOD_2, STUB_METHOD_3, STUB_FUNCTION_0,
        STUB_FUNCTION_1, STUB_FUNCTION_2] <;>
      split <;> simp [*]
  all_goals
    simp [Skeleton, Skeleton_const, FunctionSkeleton, tuple_call_method, tuple_call_const,
      tuple_call, invoke, invoke_const, invoke_function, get0, get1, get2, set1, set2] <;>
    simp [get1] at hlive <;> simp [hlive]

/-- Witness of C8: on the packet `((5), 0, 99)` whose receiver is the `Counter`
of count 1 at address 0, the trampoline of `int bump( int n )`, which adds `n`
and returns the new count, leaves 6 in the return slot that held 99. -/
theorem return_slot_written_then_read_witness :
    System.deref (⟨[some ⟨1⟩], []⟩ : System Counter) (get1 (((5, ()), 0, 99, ()) :
        tuple [tuple [Int], Ptr, Int])) = some ⟨1⟩ ∧
      (Skeleton Counter Int [Int]).call (fun c n => (c.count + n, ⟨c.count + n⟩))
          ((5, ()), 0, 99, ()) ⟨[some ⟨1⟩], []⟩ =
        some (((5, ()), 0, 6, ()), ⟨[some ⟨6⟩], [Event.method 0]⟩) :=
  ⟨rfl, ((@return_slot_written_then_read Counter Int Int Int Int [Int] ⟨[some ⟨1⟩], []⟩
    ((5, ()), 0, 99, ()) ⟨1⟩ rfl ⟨0⟩ 5 0 0).1 (fun c n => (c.count + n, ⟨c.count + n⟩))).1⟩

/-- C9: the packet of a void operation has no return slot (argument tuple and
receiver for a method, argument tuple alone for a free function); the void
trampolines return and leave the packet exactly as it was, whatever the bound
operation does to the heap, and in particular when it has no side effect; and
the void `get_return` yields the one value of `Unit` whatever the packet
holds. -/
theorem void_operations_have_no_return_slot {T : Type} {Args : List Type} (s : System T)
    (data : tuple [tuple Args, Ptr]) (t : T) (hlive : s.deref (get1 data) = some t) :
    ((Skeleton_void T Args).slots = [] ∧ (Skeleton_const_void T Args).slots = [] ∧
        (FunctionSkeleton_void T Args).slots = []) ∧
      ((Skeleton_void T Args).tuple_type = tuple [tuple Args, Ptr] ∧
        (Skeleton_const_void T Args).tuple_type = tuple [tuple Args, Ptr] ∧
        (FunctionSkeleton_void T Args).tuple_type = tuple [tuple Args]) ∧
      (∀ (M : T → Fn Args (Unit × T)),
        (Skeleton_void T Args).call M data s =
          some (data, ⟨s.heap.set (get1 data) (some (Fn.apply (M t) (get0 data)).2),
            s.trace ++ [Event.method (get1 data)]⟩)) ∧
      (∀ (M : T → Fn Args Unit),
        (Skeleton_const_void T Args).call (fun x => Fn.map no_effect (M x)) data s =
          some (data, ⟨s.heap, s.trace ++ [Event.method (get1 data)]⟩)) ∧
      (∀ (F : Fn Args Unit) (fdata : tuple [tuple Args]),
        (FunctionSkeleton_void T Args).call (Fn.map no_effect F) fdata s =
          some (fdata, ⟨s.heap, s.trace ++ [Event.function]⟩)) ∧
      (∀ (M : T → Fn Args (Effect T)),
        (Skeleton_const_void T Args).call M data s =
          some (data, ⟨Fn.apply (M t) (get0 data) s.heap,
            s.trace ++ [Event.method (get1 data)]⟩)) ∧
      (∀ (F : Fn Args (Effect T)) (fdata : tuple [tuple Args]),
        (FunctionSkeleton_void T Args).call F fdata s =
          some (fdata, ⟨Fn.apply F (get0 fdata) s.heap, s.trace ++ [Event.function]⟩)) ∧
      (∀ (d d' : tuple [tuple Args, Ptr]),
        (Skeleton_void T Args).get_return d = (Skeleton_void T Args).get_return d' ∧
          (Skeleton_const_void T Args).get_return d =
            (Skeleton_const_void T Args).get_return d') ∧
      (∀ (d d' : tuple [tuple Args]),
        (FunctionSkeleton_void T Args).get_return d =
          (FunctionSkeleton_void T Args).get_return d') := by
  refine ⟨⟨rfl, rfl, rfl⟩, ⟨rfl, rfl, rfl⟩, fun M => ?_, fun M => ?_, fun F fdata => ?_,
    fun M => ?_, fun F fdata => ?_, fun d d' => ⟨rfl, rfl⟩, fun d d' => rfl⟩ <;>
    simp [Skeleton_void, Skeleton_const_void, FunctionSkeleton_void, tuple_call_method,
      tuple_call_const_void, tuple_call_void, invoke, invoke_const_void,
      invoke_void_function, Fn.apply_map, no_effect, get0, get1] <;>
    simp [get1] at hlive <;> simp [hlive]

/-- Witness of C9: on the packet `((5), 0)` whose receiver is the `Counter` of
count 1 at address 0, the trampoline of `void increment( int )` leaves the
packet as it was and the count 6. -/
theorem void_operations_have_no_return_slot_witness :
    System.deref (⟨[some ⟨1⟩], []⟩ : System Counter) (get1 (((5, ()), 0, ()) :
        tuple [tuple [Int], Ptr])) = some ⟨1⟩ ∧
      (Skeleton_void Counter [Int]).call Counter.increment ((5, ()), 0, ())
          ⟨[some ⟨1⟩], []⟩ =
        some (((5, ()), 0, ()), ⟨[some ⟨6⟩], [Event.method 0]⟩) :=
  ⟨rfl, (@void_operations_have_no_return_slot Counter [Int] ⟨[some ⟨1⟩], []⟩
    ((5, ()), 0, ()) ⟨1⟩ rfl).2.2.1 Counter.increment⟩

theorem Alarm.period_eq (W f : Nat) (hW : 1000000 < 2 ^ W) (hf1 : 1 ≤ f)
    (hf2 : f < 2 ^ W) : Alarm.period W f = some (1000000 / f) := by
  have h1 : f % 2 ^ W = f := Nat.mod_eq_of_lt hf2
  have h2 : 1000000 % 2 ^ W = 1000000 := Nat.mod_eq_of_lt hW
  have h3 : 1000000 / f % 2 ^ W = 1000000 / f :=
    Nat.mod_eq_of_lt (lt_of_le_of_lt (Nat.div_le_self _ _) hW)
  have h4 : f ≠ 0 := by omega
  simp [Alarm.period, h1, h2, h3, h4]

/-- C10: with `Hertz`, `Microsecond` and `Tick` unsigned integers of `W` bits
that can hold 1000000, for every frequency `f` with `1 ≤ f ≤ 1000000` the
period `p = 1000000 / f` is at least 1, and for every time `t` such that
`t + p / 2` does not overflow, `ticks( t )` is `(t + p / 2) / p` and that
number `k` of periods is nearest to `t`: `2 * |t - k * p| ≤ p`; for every
frequency above 1000000 the period is 0 and `ticks` divides by zero. -/
theorem ticks_rounds_to_nearest (W f t : Nat) (hW : 1000000 < 2 ^ W) (hf1 : 1 ≤ f)
    (hf2 : f ≤ 1000000) (ht : t + 1000000 / f / 2 < 2 ^ W) :
    Alarm.period W f = some (1000000 / f) ∧ 1 ≤ 1000000 / f ∧
      Alarm.ticks W f t = some ((t + 1000000 / f / 2) / (1000000 / f)) ∧
      2 * |(t : Int) - (((t + 1000000 / f / 2) / (1000000 / f) : Nat) : Int) *
        ((1000000 / f : Nat) : Int)| ≤ ((1000000 / f : Nat) : Int) ∧
      (∀ g, 1000000 < g → g < 2 ^ W →
        Alarm.period W g = some 0 ∧ Alarm.ticks W g t = none) := by
  have hp : Alarm.period W f = some (1000000 / f) :=
    Alarm.period_eq W f hW hf1 (lt_of_le_of_lt hf2 hW)
  have hp1 : 1 ≤ 1000000 / f := (Nat.le_div_iff_mul_le (by omega)).2 (by omega)
  refine ⟨hp, hp1, ?_, ?_, ?_⟩
  · have h1 : t % 2 ^ W = t := Nat.mod_eq_of_lt (by omega)
    have h2 : (t + 1000000 / f / 2) % 2 ^ W = t + 1000000 / f / 2 := Nat.mod_eq_of_lt ht
    have h3 : 1000000 / f ≠ 0 := by omega
    simp [Alarm.ticks, hp, h1, h2, h3]
  · generalize 1000000 / f = p at hp1
    have hlo : (t + p / 2) / p * p ≤ t + p / 2 := Nat.div_mul_le_self _ _
    have hhi : t + p / 2 < (t + p / 2) / p * p + p := by
      have hd := Nat.div_add_mod (t + p / 2) p
      have hm : (t + p / 2) % p < p := Nat.mod_lt _ (by omega)
      rw [Nat.mul_comm] at hd
      omega
    rw [← Nat.cast_mul]
    generalize (t + p / 2) / p * p = q at hlo hhi
    rcases abs_cases ((t : Int) - (q : Int)) with ⟨h, _⟩ | ⟨h, _⟩ <;> rw [h] <;> omega
  · intro g hg hg2
    have hp0 : Alarm.period W g = some (1000000 / g) := Alarm.period_eq W g hW (by omega) hg2
    have hz : 1000000 / g = 0 := Nat.div_eq_of_lt hg
    rw [hz] at hp0
    exact ⟨hp0, by simp [Alarm.ticks, hp0]⟩

/-- Witness of C10: with 32-bit integers and a 1000 Hz timer (period 1000 us),
1500 us is 2 ticks. -/
theorem ticks_rounds_to_nearest_witness :
    Alarm.period 32 1000 = some 1000 ∧ Alarm.ticks 32 1000 1500 = some 2 :=
  ⟨(ticks_rounds_to_nearest 32 1000 1500 (by norm_num) (by norm_num) (by norm_num)
      (by norm_num)).1,
    (ticks_rounds_to_nearest 32 1000 1500 (by norm_num) (by norm_num) (by norm_num)
      (by norm_num)).2.2.1⟩
